import Mathlib

/-!
# Attitude / heading gauge (`src/dist/gauge.js`)

A shallow embedding of the `Gauge` class.  JavaScript numbers are modelled by
exact rationals (`ℚ`): `Math.max`, `Math.min`, `+`, `-`, `*`, `/` and `%` are
the exact operations on finite values.  Every method that paints is modelled by
the list of calls it issues on the 2D context, in program order.
-/

namespace CanvasGauge

/-! ## Numbers -/

/-- Rounding toward zero, the quotient used by the JavaScript remainder. -/
def jsTrunc (q : ℚ) : ℤ :=
  if 0 ≤ q then ⌊q⌋ else ⌈q⌉

/-- JavaScript `a % b` for finite `a` and non-zero finite `b`: the remainder
of the division truncated toward zero, whose sign follows the dividend. -/
def jsRem (a b : ℚ) : ℚ :=
  a - b * (jsTrunc (a / b) : ℚ)

/-- An angle handed to the context or to `Math.sin` / `Math.cos`: the value
`degrees * Math.PI / 180` radians, kept as its number of degrees. -/
structure Angle where
  degrees : ℚ
deriving DecidableEq

/-! ## The calls issued on the 2D context -/

/-- The object returned by `createLinearGradient` after its `addColorStop`
calls: the two end points and the colour stops in the order they were added. -/
structure Gradient where
  x0 : ℚ
  y0 : ℚ
  x1 : ℚ
  y1 : ℚ
  stops : List (ℚ × String)
deriving DecidableEq

/-- A value assignable to `fillStyle` / `strokeStyle`. -/
inductive Style where
  | color (css : String)
  | gradient (g : Gradient)
deriving DecidableEq

/-- One call (or property assignment) on the `CanvasRenderingContext2D`. -/
inductive Cmd where
  | clearRect (x y w h : ℚ)
  | save
  | restore
  | translate (x y : ℚ)
  | rotate (angle : Angle)
  | createLinearGradient (x0 y0 x1 y1 : ℚ)
  | beginPath
  | arc (x y radius : ℚ) (startAngle endAngle : Angle)
  | moveTo (x y : ℚ)
  | lineTo (x y : ℚ)
  | setStrokeStyle (s : Style)
  | setFillStyle (s : Style)
  | setLineWidth (w : ℚ)
  | setFont (font : String)
  | setTextAlign (align : String)
  | stroke
  | fill
  | fillText (text : String) (x y : ℚ)
deriving DecidableEq

/-! ## Data model -/

/-- The record `this.config`. -/
structure Config where
  minAngle : ℚ
  maxAngle : ℚ
  minPitch : ℚ
  maxPitch : ℚ
  skyColor : String
  groundColor : String
  scaleColor : String
  pitchLines : ℚ
  lineSpacing : ℚ
deriving DecidableEq

/-- The `options` argument of the constructor, a plain record of values: each
key may be absent. -/
structure Options where
  minAngle : Option ℚ := none
  maxAngle : Option ℚ := none
  minPitch : Option ℚ := none
  maxPitch : Option ℚ := none
  skyColor : Option String := none
  groundColor : Option String := none
  scaleColor : Option String := none
  pitchLines : Option ℚ := none
  lineSpacing : Option ℚ := none
deriving DecidableEq

/-- The literal defaults of the constructor (lines 10-18). -/
def defaultConfig : Config where
  minAngle := -360
  maxAngle := 360
  minPitch := -90
  maxPitch := 90
  skyColor := "#87CEEB"
  groundColor := "#8B4513"
  scaleColor := "#fff"
  pitchLines := 6
  lineSpacing := 10

/-- The object spread `{ defaults, ...options }`: a key present in `options`
replaces the default. -/
def mergeOptions (options : Options) : Config where
  minAngle := options.minAngle.getD defaultConfig.minAngle
  maxAngle := options.maxAngle.getD defaultConfig.maxAngle
  minPitch := options.minPitch.getD defaultConfig.minPitch
  maxPitch := options.maxPitch.getD defaultConfig.maxPitch
  skyColor := options.skyColor.getD defaultConfig.skyColor
  groundColor := options.groundColor.getD defaultConfig.groundColor
  scaleColor := options.scaleColor.getD defaultConfig.scaleColor
  pitchLines := options.pitchLines.getD defaultConfig.pitchLines
  lineSpacing := options.lineSpacing.getD defaultConfig.lineSpacing

/-- The 2D drawing context object; the calls made on it are what the drawing
methods return. -/
inductive Context2D where
  | context2d
deriving DecidableEq

/-- A value that a call can throw.  `typeError` is the runtime's `TypeError`
(a property access on `null` / `undefined`, or a call of something that is not
a function); `configurationError` and `surfaceError` are the two kinds the
specification names; `thrown name` is any other exception, by its name, such as
the `InvalidStateError` of a host method. -/
inductive GaugeError where
  | typeError
  | configurationError
  | surfaceError
  | thrown (name : String)
deriving DecidableEq

/-- What the call `getContext('2d')` does on a canvas: it returns a context,
returns `null` (`returns none`), or throws. -/
inductive GetContextResult where
  | returns (ctx : Option Context2D)
  | throws (e : GaugeError)
deriving DecidableEq

/-- A canvas element as the gauge uses it: its size and the outcome of
`getContext('2d')`. -/
structure Canvas where
  width : ℚ
  height : ℚ
  getContext2d : GetContextResult
deriving DecidableEq

/-- The fields of a `Gauge` instance. -/
structure Gauge where
  canvas : Canvas
  ctx : Option Context2D
  yaw : ℚ
  pitch : ℚ
  config : Config
deriving DecidableEq

/-- The first argument of the constructor: `absent` for `null` / `undefined`,
`noGetContext` for a value that has no callable `getContext`, `canvas c` for a
canvas element. -/
inductive Surface where
  | absent
  | noGetContext
  | canvas (c : Canvas)
deriving DecidableEq

/-- The constructor (lines 2-21).  The call `canvas.getContext('2d')` of line 4
raises a `TypeError` when `canvas` is `null` / `undefined` or has no such
method, and whatever `getContext` throws leaves the constructor unchanged, as
there is no `try`; otherwise the fields are assigned and nothing is checked. -/
def Gauge.constructor (canvas : Surface) (options : Options) : Except GaugeError Gauge :=
  match canvas with
  | Surface.absent => .error .typeError
  | Surface.noGetContext => .error .typeError
  | Surface.canvas c =>
    match c.getContext2d with
    | GetContextResult.throws e => .error e
    | GetContextResult.returns ctx =>
      .ok { canvas := c, ctx := ctx, yaw := 0, pitch := 0, config := mergeOptions options }

/-- Method `setYaw` (lines 24-26). -/
def Gauge.setYaw (g : Gauge) (angle : ℚ) : Gauge :=
  { g with yaw := max g.config.minAngle (min g.config.maxAngle angle) }

/-- Method `setPitch` (lines 29-31). -/
def Gauge.setPitch (g : Gauge) (angle : ℚ) : Gauge :=
  { g with pitch := max g.config.minPitch (min g.config.maxPitch angle) }

/-- The three-way clamp as the specification words it. -/
def clamp (a lo hi : ℚ) : ℚ :=
  if a < lo then lo else if a > hi then hi else a

/-! ## Drawing methods -/

/-- The library functions `Math.sin` and `Math.cos`, which the heading ring
calls; they are not part of the repository and are taken as parameters. -/
structure Trig where
  sin : Angle → ℚ
  cos : Angle → ℚ

/-- The angle `normalizedYaw` computed at line 67. -/
def normalizedYaw (yaw : ℚ) : ℚ :=
  jsRem (jsRem yaw 360 + 360) 360

/-- The value `pitchOffset` computed at lines 70-71 of `drawDynamicHorizon`. -/
def pitchOffset (pitch radius : ℚ) : ℚ :=
  let pitchScale := radius / 90
  pitch * pitchScale

/-- Method `drawOuterCircle` (lines 54-60). -/
def Gauge.drawOuterCircle (g : Gauge) (centerX centerY radius : ℚ) : List Cmd :=
  [ Cmd.beginPath,
    Cmd.arc centerX centerY radius ⟨0⟩ ⟨360⟩,
    Cmd.setStrokeStyle (Style.color g.config.scaleColor),
    Cmd.setLineWidth 2,
    Cmd.stroke ]

/-- The gradient built at lines 73-80. -/
def Gauge.horizonGradient (g : Gauge) (radius : ℚ) : Gradient :=
  let pitchOffset := pitchOffset g.pitch radius
  { x0 := 0, y0 := -radius + pitchOffset, x1 := 0, y1 := radius + pitchOffset,
    stops := [(0, g.config.skyColor), (1/2, g.config.skyColor),
              (1/2, g.config.groundColor), (1, g.config.groundColor)] }

/-- Method `drawDynamicHorizon` (lines 63-95). -/
def Gauge.drawDynamicHorizon (g : Gauge) (centerX centerY radius : ℚ) : List Cmd :=
  let normalizedYaw := normalizedYaw g.yaw
  let pitchOffset := pitchOffset g.pitch radius
  [ Cmd.save,
    Cmd.translate centerX centerY,
    Cmd.rotate ⟨-normalizedYaw⟩,
    Cmd.createLinearGradient 0 (-radius + pitchOffset) 0 (radius + pitchOffset),
    Cmd.beginPath,
    Cmd.arc 0 0 radius ⟨0⟩ ⟨360⟩,
    Cmd.setFillStyle (Style.gradient (g.horizonGradient radius)),
    Cmd.fill,
    Cmd.beginPath,
    Cmd.moveTo (-radius) pitchOffset,
    Cmd.lineTo radius pitchOffset,
    Cmd.setStrokeStyle (Style.color g.config.scaleColor),
    Cmd.setLineWidth 2,
    Cmd.stroke,
    Cmd.restore ]

/-- Method `drawPitchLine` (lines 127-139); `i % 2` is truthy for odd `i`. -/
def drawPitchLine (centerX yPos lineLength : ℚ) (i : ℕ) : List Cmd :=
  [Cmd.beginPath] ++
  (if i % 2 ≠ 0 then
    [ Cmd.moveTo (centerX - lineLength / 2 + 5) yPos,
      Cmd.lineTo (centerX + lineLength / 2 - 5) yPos ]
  else
    [ Cmd.moveTo (centerX - lineLength) yPos,
      Cmd.lineTo (centerX + lineLength) yPos,
      Cmd.fillText (toString (i * 10)) (centerX + lineLength + 15) (yPos + 4),
      Cmd.fillText (toString (i * 10)) (centerX - lineLength - 15) (yPos + 4) ]) ++
  [Cmd.stroke]

/-- The body of the loop of `drawPitchIndicators` (lines 115-121). -/
def Gauge.pitchRungs (g : Gauge) (centerX centerY lineLength : ℚ) (i : ℕ) : List Cmd :=
  let yPosUp := centerY - i * g.config.lineSpacing
  let yPosDown := centerY + i * g.config.lineSpacing
  drawPitchLine centerX yPosUp lineLength i ++ drawPitchLine centerX yPosDown lineLength i

/-- The loop `for (let i = ...; i <= pitchLines; i++)` of lines 114-122, from
the current value of `i`, running at most `fuel` iterations. -/
def Gauge.pitchLoop (g : Gauge) (centerX centerY lineLength : ℚ) : ℕ → ℕ → List Cmd
  | 0, _ => []
  | fuel + 1, i =>
    if (i : ℚ) ≤ g.config.pitchLines then
      g.pitchRungs centerX centerY lineLength i ++
        g.pitchLoop centerX centerY lineLength fuel (i + 1)
    else []

/-- Method `drawPitchIndicators` (lines 104-125).  The loop starts at `i = 1`
and is given `⌊pitchLines⌋` iterations, as many as its condition allows. -/
def Gauge.drawPitchIndicators (g : Gauge) (centerX centerY _radius : ℚ) : List Cmd :=
  let lineLength : ℚ := 20
  [ Cmd.save,
    Cmd.setStrokeStyle (Style.color g.config.scaleColor),
    Cmd.setLineWidth 1,
    Cmd.setFont "12px Arial",
    Cmd.setFillStyle (Style.color g.config.scaleColor),
    Cmd.setTextAlign "center" ] ++
  g.pitchLoop centerX centerY lineLength (⌊g.config.pitchLines⌋).toNat 1 ++
  [Cmd.restore]

/-- The callback of `headings.forEach` (lines 160-176) for one heading. -/
def headingTick (m : Trig) (centerX centerY radius : ℚ) (heading : ℚ × String) : List Cmd :=
  let indicatorSize : ℚ := 15
  let textOffset : ℚ := 25
  let angle : Angle := ⟨heading.1⟩
  let x := centerX + m.sin angle * (radius + textOffset / 2)
  let y := centerY - m.cos angle * (radius + textOffset / 2)
  [ Cmd.beginPath,
    Cmd.moveTo (centerX + m.sin angle * (radius - indicatorSize))
               (centerY - m.cos angle * (radius - indicatorSize)),
    Cmd.lineTo (centerX + m.sin angle * radius) (centerY - m.cos angle * radius),
    Cmd.stroke,
    Cmd.fillText heading.2 x (y + 5) ]

/-- The loop `for (let i = ...; i < 360; i += 30)` of lines 178-193, from the
current value of `i`, running at most `fuel` iterations. -/
def minorTickLoop (m : Trig) (centerX centerY radius : ℚ) : ℕ → ℕ → List Cmd
  | 0, _ => []
  | fuel + 1, i =>
    if i < 360 then
      (if i % 90 = 0 then []
       else
        let angle : Angle := ⟨(i : ℚ)⟩
        let lineLength : ℚ := 10
        let x := centerX + m.sin angle * (radius + lineLength)
        let y := centerY - m.cos angle * (radius + lineLength)
        [ Cmd.beginPath,
          Cmd.moveTo x y,
          Cmd.lineTo (centerX + m.sin angle * radius) (centerY - m.cos angle * radius),
          Cmd.stroke,
          Cmd.fillText (toString (i / 10)) x (y + 5) ]) ++
        minorTickLoop m centerX centerY radius fuel (i + 30)
    else []

/-- Method `drawHeadingIndicators` (lines 142-196); twelve iterations take
`i` from 0 to 360. -/
def Gauge.drawHeadingIndicators (g : Gauge) (m : Trig) (centerX centerY radius : ℚ) :
    List Cmd :=
  let headings : List (ℚ × String) := [(0, "N"), (90, "E"), (180, "S"), (270, "W")]
  [ Cmd.save,
    Cmd.setStrokeStyle (Style.color g.config.scaleColor),
    Cmd.setLineWidth 1,
    Cmd.setFont "14px Arial",
    Cmd.setFillStyle (Style.color g.config.scaleColor),
    Cmd.setTextAlign "center" ] ++
  headings.flatMap (headingTick m centerX centerY radius) ++
  minorTickLoop m centerX centerY radius 12 0 ++
  [Cmd.restore]

/-- Method `drawFixedIndicators` (lines 98-101). -/
def Gauge.drawFixedIndicators (g : Gauge) (m : Trig) (centerX centerY radius : ℚ) :
    List Cmd :=
  g.drawHeadingIndicators m centerX centerY radius ++
  g.drawPitchIndicators centerX centerY radius

/-- Method `drawFixedMarkers` (lines 199-224). -/
def Gauge.drawFixedMarkers (_g : Gauge) (centerX centerY : ℚ) : List Cmd :=
  let radius := min centerX centerY - 20
  let pitchScale := radius / 90
  let pitchOffset := 1 * pitchScale
  [ Cmd.save,
    Cmd.setStrokeStyle (Style.color "#f00"),
    Cmd.setLineWidth 2,
    Cmd.beginPath,
    Cmd.moveTo (centerX - 50) (centerY + pitchOffset),
    Cmd.lineTo (centerX - 10) (centerY + pitchOffset),
    Cmd.moveTo (centerX + 10) (centerY + pitchOffset),
    Cmd.lineTo (centerX + 50) (centerY + pitchOffset),
    Cmd.stroke,
    Cmd.beginPath,
    Cmd.setLineWidth 5,
    Cmd.moveTo centerX (centerY + 2 + pitchOffset),
    Cmd.lineTo centerX (centerY - 2 + pitchOffset),
    Cmd.setStrokeStyle (Style.color "#ff0"),
    Cmd.stroke,
    Cmd.restore ]

/-- The calls of `draw` (lines 35-50) once `this.ctx` is a context. -/
def Gauge.drawCalls (g : Gauge) (m : Trig) : List Cmd :=
  let centerX := g.canvas.width / 2
  let centerY := g.canvas.height / 2
  let radius := min centerX centerY - 20
  [Cmd.clearRect 0 0 g.canvas.width g.canvas.height] ++
  g.drawOuterCircle centerX centerY radius ++
  g.drawDynamicHorizon centerX centerY radius ++
  g.drawFixedIndicators m centerX centerY radius ++
  g.drawFixedMarkers centerX centerY

/-- Method `draw` (lines 34-51): with `this.ctx` equal to `null` the first
call `this.ctx.clearRect` raises a `TypeError`; otherwise the calls are
issued in order. -/
def Gauge.draw (g : Gauge) (m : Trig) : Except GaugeError (List Cmd) :=
  match g.ctx with
  | none => .error .typeError
  | some _ => .ok (g.drawCalls m)

/-! ## What the calls paint

A model of the state a `CanvasRenderingContext2D` keeps between calls (the
drawing state with its save stack, and the current path), used to read off
which primitives a sequence of calls paints. -/

/-- One step of the current transformation. -/
inductive Xform where
  | translate (x y : ℚ)
  | rotate (angle : Angle)
deriving DecidableEq

/-- A piece of the current path, in the coordinates given to the call. -/
inductive PathItem where
  | segment (x0 y0 x1 y1 : ℚ)
  | arc (x y radius : ℚ) (startAngle endAngle : Angle)
deriving DecidableEq

/-- The drawing state that `save` pushes and `restore` pops; `frame` lists the
transformations applied so far, oldest first. -/
structure DrawState where
  strokeStyle : Style
  fillStyle : Style
  lineWidth : ℚ
  font : String
  textAlign : String
  frame : List Xform
deriving DecidableEq

/-- A painted primitive.  A path item carries the frame in which it was added
to the path; a stroke carries the stroke style and line width in force when
`stroke` was called. -/
inductive Prim where
  | cleared (x y w h : ℚ)
  | stroked (item : PathItem) (frame : List Xform) (style : Style) (lineWidth : ℚ)
  | filled (items : List (PathItem × List Xform)) (style : Style)
  | text (s : String) (x y : ℚ) (frame : List Xform) (style : Style)
      (font align : String)
deriving DecidableEq

/-- The state of the context: drawing state, save stack, current path and the
last point of the current subpath. -/
structure CanvasState where
  cur : DrawState
  saved : List DrawState
  path : List (PathItem × List Xform)
  pen : Option (ℚ × ℚ)
deriving DecidableEq

/-- The state of a freshly created context. -/
def CanvasState.initial : CanvasState where
  cur := { strokeStyle := Style.color "#000000", fillStyle := Style.color "#000000",
           lineWidth := 1, font := "10px sans-serif", textAlign := "start", frame := [] }
  saved := []
  path := []
  pen := none

/-- The effect of one call: the next state and the primitives painted.  Every
`arc` of this program directly follows `beginPath`, so the line joining the
previous point to the start of the arc is not modelled. -/
def step (s : CanvasState) : Cmd → CanvasState × List Prim
  | Cmd.clearRect x y w h => (s, [Prim.cleared x y w h])
  | Cmd.save => ({ s with saved := s.cur :: s.saved }, [])
  | Cmd.restore =>
    match s.saved with
    | [] => (s, [])
    | d :: ds => ({ s with cur := d, saved := ds }, [])
  | Cmd.translate x y =>
    ({ s with cur := { s.cur with frame := s.cur.frame ++ [Xform.translate x y] } }, [])
  | Cmd.rotate a =>
    ({ s with cur := { s.cur with frame := s.cur.frame ++ [Xform.rotate a] } }, [])
  | Cmd.createLinearGradient _ _ _ _ => (s, [])
  | Cmd.beginPath => ({ s with path := [], pen := none }, [])
  | Cmd.arc x y r a b =>
    ({ s with path := s.path ++ [(PathItem.arc x y r a b, s.cur.frame)], pen := none }, [])
  | Cmd.moveTo x y => ({ s with pen := some (x, y) }, [])
  | Cmd.lineTo x y =>
    match s.pen with
    | none => ({ s with pen := some (x, y) }, [])
    | some p =>
      ({ s with path := s.path ++ [(PathItem.segment p.1 p.2 x y, s.cur.frame)],
                pen := some (x, y) }, [])
  | Cmd.setStrokeStyle st => ({ s with cur := { s.cur with strokeStyle := st } }, [])
  | Cmd.setFillStyle st => ({ s with cur := { s.cur with fillStyle := st } }, [])
  | Cmd.setLineWidth w => ({ s with cur := { s.cur with lineWidth := w } }, [])
  | Cmd.setFont f => ({ s with cur := { s.cur with font := f } }, [])
  | Cmd.setTextAlign a => ({ s with cur := { s.cur with textAlign := a } }, [])
  | Cmd.stroke =>
    (s, s.path.map fun it => Prim.stroked it.1 it.2 s.cur.strokeStyle s.cur.lineWidth)
  | Cmd.fill => (s, [Prim.filled s.path s.cur.fillStyle])
  | Cmd.fillText t x y =>
    (s, [Prim.text t x y s.cur.frame s.cur.fillStyle s.cur.font s.cur.textAlign])

/-- The effect of a sequence of calls. -/
def run (s : CanvasState) : List Cmd → CanvasState × List Prim
  | [] => (s, [])
  | c :: cs =>
    let r1 := step s c
    let r2 := run r1.1 cs
    (r2.1, r1.2 ++ r2.2)

/-- The primitives painted by a sequence of calls on a context in state `s`. -/
def paintFrom (s : CanvasState) (cmds : List Cmd) : List Prim :=
  (run s cmds).2

/-- The primitives painted by a sequence of calls on a fresh context. -/
def paint (cmds : List Cmd) : List Prim :=
  paintFrom CanvasState.initial cmds

/-- A gauge on a canvas of the given size that has a 2D context, in the given
state: what the constructor followed by the setters can leave behind. -/
def Gauge.withState (width height : ℚ) (config : Config) (yaw pitch : ℚ) : Gauge :=
  { canvas := { width := width, height := height,
                getContext2d := GetContextResult.returns (some Context2D.context2d) },
    ctx := some Context2D.context2d, yaw := yaw, pitch := pitch, config := config }

/-- A 200 by 200 canvas with a 2D context. -/
def canvas200 : Canvas :=
  { width := 200, height := 200,
    getContext2d := GetContextResult.returns (some Context2D.context2d) }

/-- A 200 by 200 canvas whose `getContext('2d')` returns `null`. -/
def canvasNoContext : Canvas :=
  { width := 200, height := 200, getContext2d := GetContextResult.returns none }

/-- A 200 by 200 canvas whose `getContext('2d')` throws an `InvalidStateError`,
as a canvas does once its control was transferred offscreen. -/
def canvasTransferred : Canvas :=
  { width := 200, height := 200,
    getContext2d := GetContextResult.throws (GaugeError.thrown "InvalidStateError") }

/-- The gauge constructed with defaults on `canvas200`. -/
def gauge200 : Gauge :=
  Gauge.withState 200 200 defaultConfig 0 0

/-- A sequence of calls that leaves the drawing state and the save stack as
it found them. -/
def Preserves (cmds : List Cmd) : Prop :=
  ∀ s : CanvasState, (run s cmds).1.cur = s.cur ∧ (run s cmds).1.saved = s.saved

/-- A sequence of calls that leaves the current transformation and the save
stack as it found them. -/
def KeepsFrame (cmds : List Cmd) : Prop :=
  ∀ s : CanvasState, (run s cmds).1.cur.frame = s.cur.frame ∧ (run s cmds).1.saved = s.saved

/-- The primitives one call of `drawPitchLine` with `lineLength = 20` paints
at height `y` for rung `i`, when the drawing state is `d`: two labels and a
long tick for even `i`, a short tick for odd `i`. -/
def rungPrims (d : DrawState) (centerX y : ℚ) (i : ℕ) : List Prim :=
  if i % 2 = 0 then
    [ Prim.text (toString (i * 10)) (centerX + 35) (y + 4) d.frame d.fillStyle d.font
        d.textAlign,
      Prim.text (toString (i * 10)) (centerX - 35) (y + 4) d.frame d.fillStyle d.font
        d.textAlign,
      Prim.stroked (PathItem.segment (centerX - 20) y (centerX + 20) y) d.frame
        d.strokeStyle d.lineWidth ]
  else
    [ Prim.stroked (PathItem.segment (centerX - 5) y (centerX + 5) y) d.frame
        d.strokeStyle d.lineWidth ]

/-- The drawing state in force inside the loop of `drawPitchIndicators` on a
fresh context (lines 108-112). -/
def ladderState (scaleColor : String) : DrawState :=
  { strokeStyle := Style.color scaleColor, fillStyle := Style.color scaleColor,
    lineWidth := 1, font := "12px Arial", textAlign := "center", frame := [] }

/-- Whether a primitive is a stroke. -/
def Prim.isStroke : Prim → Bool
  | Prim.stroked _ _ _ _ => true
  | _ => false

/-- The three strokes of the fixed marker in the given frame, at height `y`:
two red segments of width 2 and a yellow vertical segment of width 5. -/
def markerPrims (frame : List Xform) (centerX y : ℚ) : List Prim :=
  [ Prim.stroked (PathItem.segment (centerX - 50) y (centerX - 10) y) frame
      (Style.color "#f00") 2,
    Prim.stroked (PathItem.segment (centerX + 10) y (centerX + 50) y) frame
      (Style.color "#f00") 2,
    Prim.stroked (PathItem.segment centerX (y + 2) centerX (y - 2)) frame
      (Style.color "#ff0") 5 ]

/-- The calls of `draw` that precede `drawFixedMarkers` (lines 35-47). -/
def Gauge.drawCallsBeforeMarkers (g : Gauge) (m : Trig) : List Cmd :=
  let centerX := g.canvas.width / 2
  let centerY := g.canvas.height / 2
  let radius := min centerX centerY - 20
  [Cmd.clearRect 0 0 g.canvas.width g.canvas.height] ++
  g.drawOuterCircle centerX centerY radius ++
  g.drawDynamicHorizon centerX centerY radius ++
  g.drawFixedIndicators m centerX centerY radius

/-- The default gauge on `canvas200` with `pitchLines` set to 3. -/
def gaugeThreeLines : Gauge :=
  Gauge.withState 200 200 { defaultConfig with pitchLines := 3 } 0 0

/-- Stand-ins for `Math.sin` and `Math.cos`, used to instantiate the drawing
methods at concrete inputs. -/
def sampleTrig : Trig :=
  { sin := fun _ => 0, cos := fun _ => 1 }

/-! ## Clamping -/

theorem max_min_eq_clamp (a lo hi : ℚ) (h : lo ≤ hi) : max lo (min hi a) = clamp a lo hi := by
  unfold clamp
  split_ifs with h1 h2
  · rw [max_eq_left]; exact le_trans (min_le_right _ _) h1.le
  · rw [min_eq_left h2.le, max_eq_right h]
  · rw [min_eq_right (not_lt.mp h2), max_eq_right (not_lt.mp h1)]

theorem max_min_idem (a lo hi : ℚ) : max lo (min hi (max lo (min hi a))) = max lo (min hi a) := by
  rcases le_total lo hi with h | h
  · rw [min_eq_right (max_le h (min_le_left _ _))]
    exact max_eq_right (le_max_left _ _)
  · have h1 : ∀ x : ℚ, max lo (min hi x) = lo := fun x =>
      max_eq_left (le_trans (min_le_left _ _) h)
    rw [h1, h1]

/-- C1: with `minAngle ≤ maxAngle`, `setYaw a` stores `clamp a minAngle maxAngle`;
with `minPitch ≤ maxPitch`, `setPitch a` stores `clamp a minPitch maxPitch`; and
under the default configuration `setYaw 720` stores 360, which differs from the
wrapped value `normalizedYaw 720 = 0`. -/
theorem setYaw_setPitch_store_clamp (g : Gauge) (a : ℚ) :
    (g.config.minAngle ≤ g.config.maxAngle →
      (g.setYaw a).yaw = clamp a g.config.minAngle g.config.maxAngle) ∧
    (g.config.minPitch ≤ g.config.maxPitch →
      (g.setPitch a).pitch = clamp a g.config.minPitch g.config.maxPitch) ∧
    (g.config = defaultConfig → (g.setYaw 720).yaw = 360) ∧
    normalizedYaw 720 = 0 := by
  refine ⟨fun h => max_min_eq_clamp _ _ _ h, fun h => max_min_eq_clamp _ _ _ h, ?_, ?_⟩
  · intro h
    simp only [Gauge.setYaw, h, defaultConfig]
    norm_num
  · norm_num [normalizedYaw, jsRem, jsTrunc]

/-- C6: clamping is idempotent: calling `setYaw` again with the stored yaw, or
`setPitch` again with the stored pitch, leaves the gauge unchanged, for every
configuration. -/
theorem setYaw_setPitch_idempotent (g : Gauge) (a : ℚ) :
    (g.setYaw a).setYaw (g.setYaw a).yaw = g.setYaw a ∧
    (g.setPitch a).setPitch (g.setPitch a).pitch = g.setPitch a := by
  constructor
  · simp only [Gauge.setYaw, max_min_idem]
  · simp only [Gauge.setPitch, max_min_idem]

theorem setYaw_setPitch_store_clamp_witness :
    (gauge200.setYaw 720).yaw = clamp 720 (-360) 360 ∧
    (gauge200.setPitch (-100)).pitch = clamp (-100) (-90) 90 ∧
    (gauge200.setYaw 720).yaw = 360 :=
  ⟨(setYaw_setPitch_store_clamp gauge200 720).1 (by norm_num [gauge200, Gauge.withState, defaultConfig]),
   (setYaw_setPitch_store_clamp gauge200 (-100)).2.1
     (by norm_num [gauge200, Gauge.withState, defaultConfig]),
   (setYaw_setPitch_store_clamp gauge200 720).2.2.1 rfl⟩

/-! ## Yaw normalisation -/

theorem jsTrunc_intCast_div (z : ℤ) : jsTrunc ((z : ℚ) / 360) = z.tdiv 360 := by
  unfold jsTrunc
  have h360 : ((360 : ℕ) : ℚ) = 360 := by norm_num
  split_ifs with h
  · have hz : 0 ≤ z := by
      have h1 : (0 : ℚ) ≤ (z : ℚ) / 360 * 360 := mul_nonneg h (by norm_num)
      have h2 : (z : ℚ) / 360 * 360 = z := by field_simp
      rw [h2] at h1
      exact_mod_cast h1
    rw [← h360, Rat.floor_intCast_div_natCast, Int.tdiv_eq_ediv hz (by norm_num)]
    norm_num
  · have hz : z < 0 := by
      by_contra hc
      apply h
      have : (0 : ℚ) ≤ z := by exact_mod_cast (not_lt.mp hc)
      positivity
    have h1 : (z : ℚ) / 360 = -(((-z : ℤ) : ℚ) / ((360 : ℕ) : ℚ)) := by
      push_cast
      ring
    rw [h1, Int.ceil_neg, Rat.floor_intCast_div_natCast,
      ← Int.tdiv_eq_ediv (by omega) (by norm_num), Int.neg_tdiv]
    norm_num

theorem jsRem_intCast (z : ℤ) : jsRem (z : ℚ) 360 = ((z.tmod 360 : ℤ) : ℚ) := by
  unfold jsRem
  rw [jsTrunc_intCast_div, Int.tmod_def]
  push_cast
  ring

theorem normalizedYaw_intCast (z : ℤ) :
    normalizedYaw (z : ℚ) = (((z.tmod 360 + 360).tmod 360 : ℤ) : ℚ) := by
  unfold normalizedYaw
  rw [jsRem_intCast]
  have h : ((z.tmod 360 : ℤ) : ℚ) + 360 = ((z.tmod 360 + 360 : ℤ) : ℚ) := by
    push_cast
    rfl
  rw [h, jsRem_intCast]

theorem tmod_360_bounds (z : ℤ) : -360 < z.tmod 360 ∧ z.tmod 360 < 360 := by
  refine ⟨?_, Int.tmod_lt_of_pos z (by norm_num)⟩
  rcases le_or_lt 0 z with h | h
  · have := Int.tmod_nonneg 360 h
    omega
  · have h1 : z.tmod 360 = -((-z).tmod 360) := by
      rw [Int.tmod_def, Int.tmod_def, Int.neg_tdiv]
      ring
    have h2 := Int.tmod_lt_of_pos (-z) (by norm_num : (0 : ℤ) < 360)
    omega

theorem tmod_tmod_360_eq_emod (z : ℤ) : (z.tmod 360 + 360).tmod 360 = z % 360 := by
  have hb := tmod_360_bounds z
  have hdef := Int.tmod_def z 360
  rw [Int.tmod_eq_emod (by omega) (by norm_num)]
  generalize z.tdiv 360 = q at hdef
  omega

theorem normalizedYaw_intCast_emod (z : ℤ) : normalizedYaw (z : ℚ) = ((z % 360 : ℤ) : ℚ) := by
  rw [normalizedYaw_intCast, tmod_tmod_360_eq_emod]

theorem normalizedYaw_370 : normalizedYaw 370 = 10 := by
  have h := normalizedYaw_intCast_emod 370
  norm_num at h
  exact h

theorem normalizedYaw_10 : normalizedYaw 10 = 10 := by
  have h := normalizedYaw_intCast_emod 10
  norm_num at h
  exact h

theorem normalizedYaw_neg_10 : normalizedYaw (-10) = 350 := by
  have h := normalizedYaw_intCast_emod (-10)
  norm_num at h
  exact h

theorem normalizedYaw_350 : normalizedYaw 350 = 350 := by
  have h := normalizedYaw_intCast_emod 350
  norm_num at h
  exact h

theorem normalizedYaw_0 : normalizedYaw 0 = 0 := by
  norm_num [normalizedYaw, jsRem, jsTrunc]

theorem normalizedYaw_360 : normalizedYaw 360 = 0 := by
  norm_num [normalizedYaw, jsRem, jsTrunc]

theorem normalizedYaw_neg_360 : normalizedYaw (-360) = 0 := by
  have h := normalizedYaw_intCast_emod (-360)
  norm_num at h
  exact h

/-- C2: for every integer yaw the value `normalizedYaw` of line 67 is the
integer `((yaw % 360) + 360) % 360` taken with the truncated remainder, it lies
in `[0, 360)`, it is congruent to yaw modulo 360, and the third call of
`drawDynamicHorizon` rotates by minus that many degrees; a stored yaw of 370 is
drawn exactly as 10, and a stored yaw of -10 exactly as 350. -/
theorem normalizedYaw_int_range_congr (yaw : ℤ) (g : Gauge) (centerX centerY radius : ℚ) :
    normalizedYaw (yaw : ℚ) = (((yaw.tmod 360 + 360).tmod 360 : ℤ) : ℚ) ∧
    0 ≤ (yaw.tmod 360 + 360).tmod 360 ∧
    (yaw.tmod 360 + 360).tmod 360 < 360 ∧
    (yaw.tmod 360 + 360).tmod 360 ≡ yaw [ZMOD 360] ∧
    0 ≤ normalizedYaw (yaw : ℚ) ∧
    normalizedYaw (yaw : ℚ) < 360 ∧
    (({ g with yaw := (yaw : ℚ) } : Gauge).drawDynamicHorizon centerX centerY radius)[2]? =
      some (Cmd.rotate ⟨-(((yaw.tmod 360 + 360).tmod 360 : ℤ) : ℚ)⟩) ∧
    ({ g with yaw := 370 } : Gauge).drawDynamicHorizon centerX centerY radius =
      ({ g with yaw := 10 } : Gauge).drawDynamicHorizon centerX centerY radius ∧
    ({ g with yaw := -10 } : Gauge).drawDynamicHorizon centerX centerY radius =
      ({ g with yaw := 350 } : Gauge).drawDynamicHorizon centerX centerY radius ∧
    normalizedYaw 370 = 10 ∧
    normalizedYaw (-10) = 350 := by
  have he := tmod_tmod_360_eq_emod yaw
  have hn := normalizedYaw_intCast yaw
  have h0 : 0 ≤ (yaw.tmod 360 + 360).tmod 360 := by rw [he]; omega
  have h1 : (yaw.tmod 360 + 360).tmod 360 < 360 := by rw [he]; omega
  refine ⟨hn, h0, h1, ?_, ?_, ?_, ?_, ?_, ?_, normalizedYaw_370, normalizedYaw_neg_10⟩
  · rw [he]
    exact Int.mod_modEq yaw 360
  · rw [hn]
    exact_mod_cast h0
  · rw [hn]
    exact_mod_cast h1
  · simp only [Gauge.drawDynamicHorizon, hn]
    rfl
  · simp only [Gauge.drawDynamicHorizon, Gauge.horizonGradient, normalizedYaw_370,
      normalizedYaw_10]
  · simp only [Gauge.drawDynamicHorizon, Gauge.horizonGradient, normalizedYaw_neg_10,
      normalizedYaw_350]

/-! ## Pitch offset -/

/-- C3: on a surface of any width and height `draw` issues its calls with
`centerX = width / 2`, `centerY = height / 2`, `radius = min centerX centerY - 20`,
and the horizon is placed at `pitchOffset = pitch * (radius / 90)`; that map is
additive, odd and homogeneous in the pitch, sends 90 to `radius` and -90 to
`-radius`; pitch 90 at radius 100 gives 100, pitch -45 gives -50, and a 200 by
200 surface gives centre (100, 100), radius 80 and offset 80/3 for pitch 30. -/
theorem draw_pitchOffset_linear (width height : ℚ) (config : Config) (yaw pitch : ℚ)
    (m : Trig) :
    (Gauge.withState width height config yaw pitch).draw m =
      Except.ok
        ([Cmd.clearRect 0 0 width height] ++
          (Gauge.withState width height config yaw pitch).drawOuterCircle
            (width / 2) (height / 2)
            (min (width / 2) (height / 2) - 20) ++
          (Gauge.withState width height config yaw pitch).drawDynamicHorizon
            (width / 2) (height / 2)
            (min (width / 2) (height / 2) - 20) ++
          (Gauge.withState width height config yaw pitch).drawFixedIndicators m
            (width / 2) (height / 2)
            (min (width / 2) (height / 2) - 20) ++
          (Gauge.withState width height config yaw pitch).drawFixedMarkers
            (width / 2) (height / 2)) ∧
    (∀ centerX centerY radius : ℚ,
      (Gauge.withState width height config yaw pitch).drawDynamicHorizon centerX centerY radius =
        [ Cmd.save,
          Cmd.translate centerX centerY,
          Cmd.rotate ⟨-normalizedYaw yaw⟩,
          Cmd.createLinearGradient 0 (-radius + pitch * (radius / 90)) 0
            (radius + pitch * (radius / 90)),
          Cmd.beginPath,
          Cmd.arc 0 0 radius ⟨0⟩ ⟨360⟩,
          Cmd.setFillStyle (Style.gradient
            { x0 := 0, y0 := -radius + pitch * (radius / 90),
              x1 := 0, y1 := radius + pitch * (radius / 90),
              stops := [(0, config.skyColor), (1/2, config.skyColor),
                        (1/2, config.groundColor), (1, config.groundColor)] }),
          Cmd.fill,
          Cmd.beginPath,
          Cmd.moveTo (-radius) (pitch * (radius / 90)),
          Cmd.lineTo radius (pitch * (radius / 90)),
          Cmd.setStrokeStyle (Style.color config.scaleColor),
          Cmd.setLineWidth 2,
          Cmd.stroke,
          Cmd.restore ]) ∧
    (∀ p q radius : ℚ, pitchOffset (p + q) radius = pitchOffset p radius + pitchOffset q radius) ∧
    (∀ p radius : ℚ, pitchOffset (-p) radius = -pitchOffset p radius) ∧
    (∀ c p radius : ℚ, pitchOffset (c * p) radius = c * pitchOffset p radius) ∧
    (∀ radius : ℚ, pitchOffset 90 radius = radius) ∧
    (∀ radius : ℚ, pitchOffset (-90) radius = -radius) ∧
    pitchOffset 90 100 = 100 ∧
    pitchOffset (-45) 100 = -50 ∧
    canvas200.width / 2 = 100 ∧
    canvas200.height / 2 = 100 ∧
    min (canvas200.width / 2) (canvas200.height / 2) - 20 = 80 ∧
    pitchOffset 30 80 = 80 / 3 := by
  refine ⟨rfl, fun _ _ _ => rfl, ?_, ?_, ?_, ?_, ?_, ?_, ?_, ?_, ?_, ?_, ?_⟩
  · intro p q radius
    simp only [pitchOffset]
    ring
  · intro p radius
    simp only [pitchOffset]
    ring
  · intro c p radius
    simp only [pitchOffset]
    ring
  · intro radius
    simp only [pitchOffset]
    ring
  · intro radius
    simp only [pitchOffset]
    ring
  · norm_num [pitchOffset]
  · norm_num [pitchOffset]
  · norm_num [canvas200]
  · norm_num [canvas200]
  · norm_num [canvas200]
  · norm_num [pitchOffset]

/-! ## Construction -/

/-- C7, as the code behaves: construction fails exactly when the call
`canvas.getContext('2d')` raises, that is when the surface is absent or has no
`getContext` method (the runtime's `TypeError`) or when `getContext` itself
throws (that exception, unchanged); the constructor raises nothing of its own.
Every canvas whose `getContext` returns, also one where it returns `null`,
constructs a gauge with yaw 0, pitch 0, the merged configuration and `ctx` set
to what was returned; on a gauge without a context the first `draw` ends in a
`TypeError`. -/
theorem constructor_fails_iff_getContext_raises (surface : Surface) (width height : ℚ)
    (ctx : Option Context2D) (e : GaugeError) (options : Options) (m : Trig) :
    ((∃ err, Gauge.constructor surface options = Except.error err) ↔
      (surface = Surface.absent ∨ surface = Surface.noGetContext ∨
        ∃ c err, surface = Surface.canvas c ∧
          c.getContext2d = GetContextResult.throws err)) ∧
    Gauge.constructor Surface.absent options = Except.error GaugeError.typeError ∧
    Gauge.constructor Surface.noGetContext options = Except.error GaugeError.typeError ∧
    Gauge.constructor
        (Surface.canvas { width := width, height := height,
                          getContext2d := GetContextResult.throws e }) options =
      Except.error e ∧
    Gauge.constructor
        (Surface.canvas { width := width, height := height,
                          getContext2d := GetContextResult.returns ctx }) options =
      Except.ok { canvas := { width := width, height := height,
                              getContext2d := GetContextResult.returns ctx },
                  ctx := ctx, yaw := 0, pitch := 0, config := mergeOptions options } ∧
    Gauge.draw { canvas := { width := width, height := height,
                             getContext2d := GetContextResult.returns none },
                 ctx := none, yaw := 0, pitch := 0,
                 config := mergeOptions options } m = Except.error GaugeError.typeError := by
  refine ⟨?_, rfl, rfl, rfl, rfl, rfl⟩
  cases surface with
  | absent => simp [Gauge.constructor]
  | noGetContext => simp [Gauge.constructor]
  | canvas c0 =>
    cases hc : c0.getContext2d with
    | returns r => simp [Gauge.constructor, hc]
    | throws e0 => simp [Gauge.constructor, hc]

/-- C7 fails as stated: a canvas whose `getContext('2d')` returns `null` is
accepted by the constructor, which produces a gauge with no context; an absent
surface ends in a `TypeError`, which is a different error from a
`ConfigurationError`; and a canvas whose `getContext` throws an
`InvalidStateError` fails construction with that very exception. -/
theorem constructor_accepts_surface_without_context :
    Gauge.constructor (Surface.canvas canvasNoContext) {} =
      Except.ok { canvas := canvasNoContext, ctx := none, yaw := 0, pitch := 0,
                  config := defaultConfig } ∧
    canvasNoContext.getContext2d = GetContextResult.returns none ∧
    Gauge.constructor Surface.absent {} = Except.error GaugeError.typeError ∧
    Gauge.constructor Surface.absent {} ≠ Except.error GaugeError.configurationError ∧
    Gauge.constructor (Surface.canvas canvasTransferred) {} =
      Except.error (GaugeError.thrown "InvalidStateError") := by
  refine ⟨rfl, rfl, rfl, ?_, rfl⟩
  simp [Gauge.constructor]

/-! ## Running sequences of calls -/

theorem run_append (s : CanvasState) (a b : List Cmd) :
    run s (a ++ b) = ((run (run s a).1 b).1, (run s a).2 ++ (run (run s a).1 b).2) := by
  induction a generalizing s with
  | nil => simp [run]
  | cons c cs ih => simp [run, ih, List.append_assoc]

theorem paintFrom_append (s : CanvasState) (a b : List Cmd) :
    paintFrom s (a ++ b) = paintFrom s a ++ paintFrom (run s a).1 b := by
  simp [paintFrom, run_append]

theorem preserves_nil : Preserves [] := by
  intro s
  simp [run]

theorem preserves_append {a b : List Cmd} (ha : Preserves a) (hb : Preserves b) :
    Preserves (a ++ b) := by
  intro s
  rw [run_append]
  exact ⟨(hb _).1.trans (ha s).1, (hb _).2.trans (ha s).2⟩

theorem preserves_keepsFrame {a : List Cmd} (ha : Preserves a) : KeepsFrame a := by
  intro s
  exact ⟨by rw [(ha s).1], (ha s).2⟩

theorem keepsFrame_append {a b : List Cmd} (ha : KeepsFrame a) (hb : KeepsFrame b) :
    KeepsFrame (a ++ b) := by
  intro s
  rw [run_append]
  exact ⟨(hb _).1.trans (ha s).1, (hb _).2.trans (ha s).2⟩

theorem preserves_flatMap {α : Type} (f : α → List Cmd) (hf : ∀ x, Preserves (f x))
    (l : List α) : Preserves (l.flatMap f) := by
  induction l with
  | nil => exact preserves_nil
  | cons x xs ih =>
    rw [List.flatMap_cons]
    exact preserves_append (hf x) ih

theorem paintFrom_flatMap {α : Type} (f : α → List Cmd) (P : DrawState → α → List Prim)
    (hf : ∀ x, Preserves (f x)) (hP : ∀ s x, paintFrom s (f x) = P s.cur x)
    (l : List α) (s : CanvasState) :
    paintFrom s (l.flatMap f) = l.flatMap (P s.cur) := by
  induction l generalizing s with
  | nil => simp [paintFrom, run]
  | cons x xs ih =>
    rw [List.flatMap_cons, List.flatMap_cons, paintFrom_append, hP, ih, (hf x s).1]

theorem paintFrom_restore (s : CanvasState) : paintFrom s [Cmd.restore] = [] := by
  simp only [paintFrom, run, step]
  cases s.saved <;> simp

/-! ## The pitch ladder -/

theorem run_drawPitchLine (s : CanvasState) (centerX yPos : ℚ) (i : ℕ) :
    (run s (drawPitchLine centerX yPos 20 i)).1.cur = s.cur ∧
    (run s (drawPitchLine centerX yPos 20 i)).1.saved = s.saved ∧
    (run s (drawPitchLine centerX yPos 20 i)).2 = rungPrims s.cur centerX yPos i := by
  unfold drawPitchLine rungPrims
  by_cases h : i % 2 = 0
  · simp only [h, ne_eq, not_true_eq_false, if_false, if_true]
    simp [run, step]
    constructor <;> ring
  · simp only [h, ne_eq, not_false_eq_true, if_false, if_true]
    simp [run, step]
    constructor <;> ring

theorem preserves_drawPitchLine (centerX yPos : ℚ) (i : ℕ) :
    Preserves (drawPitchLine centerX yPos 20 i) := fun s =>
  ⟨(run_drawPitchLine s centerX yPos i).1, (run_drawPitchLine s centerX yPos i).2.1⟩

theorem preserves_pitchRungs (g : Gauge) (centerX centerY : ℚ) (i : ℕ) :
    Preserves (g.pitchRungs centerX centerY 20 i) :=
  preserves_append (preserves_drawPitchLine _ _ _) (preserves_drawPitchLine _ _ _)

theorem paintFrom_pitchRungs (g : Gauge) (centerX centerY : ℚ) (s : CanvasState) (i : ℕ) :
    paintFrom s (g.pitchRungs centerX centerY 20 i) =
      rungPrims s.cur centerX (centerY - i * g.config.lineSpacing) i ++
      rungPrims s.cur centerX (centerY + i * g.config.lineSpacing) i := by
  unfold Gauge.pitchRungs
  rw [paintFrom_append]
  simp only [paintFrom]
  rw [(run_drawPitchLine _ _ _ _).2.2, (run_drawPitchLine _ _ _ _).2.2,
    (run_drawPitchLine _ _ _ _).1]

/-- The loop of `drawPitchIndicators` issues the loop body for `i`, `i + 1`, ...
as long as the counter stays below the bound. -/
theorem pitchLoop_eq_flatMap (g : Gauge) (centerX centerY lineLength : ℚ) (n : ℕ)
    (hn : g.config.pitchLines = n) :
    ∀ fuel i : ℕ, i + fuel = n + 1 →
      g.pitchLoop centerX centerY lineLength fuel i =
        (List.range' i fuel).flatMap (g.pitchRungs centerX centerY lineLength) := by
  intro fuel
  induction fuel with
  | zero => intro i _; simp [Gauge.pitchLoop]
  | succ k ih =>
    intro i hi
    have hle : (i : ℚ) ≤ g.config.pitchLines := by
      rw [hn]
      exact_mod_cast (by omega : i ≤ n)
    simp only [Gauge.pitchLoop, hle, if_true, List.range'_succ, List.flatMap_cons]
    rw [ih (i + 1) (by omega)]

theorem drawPitchIndicators_eq (g : Gauge) (centerX centerY radius : ℚ) (n : ℕ)
    (hn : g.config.pitchLines = n) :
    g.drawPitchIndicators centerX centerY radius =
      [ Cmd.save,
        Cmd.setStrokeStyle (Style.color g.config.scaleColor),
        Cmd.setLineWidth 1,
        Cmd.setFont "12px Arial",
        Cmd.setFillStyle (Style.color g.config.scaleColor),
        Cmd.setTextAlign "center" ] ++
      (List.range' 1 n).flatMap (g.pitchRungs centerX centerY 20) ++
      [Cmd.restore] := by
  unfold Gauge.drawPitchIndicators
  have hf : (⌊g.config.pitchLines⌋).toNat = n := by
    rw [hn]
    simp
  simp only [hf]
  rw [pitchLoop_eq_flatMap g centerX centerY 20 n hn n 1 (by omega)]

theorem paint_drawPitchIndicators (g : Gauge) (centerX centerY radius : ℚ) (n : ℕ)
    (hn : g.config.pitchLines = n) :
    paint (g.drawPitchIndicators centerX centerY radius) =
      (List.range' 1 n).flatMap fun i =>
        rungPrims (ladderState g.config.scaleColor) centerX
          (centerY - i * g.config.lineSpacing) i ++
        rungPrims (ladderState g.config.scaleColor) centerX
          (centerY + i * g.config.lineSpacing) i := by
  rw [drawPitchIndicators_eq g centerX centerY radius n hn, paint, List.append_assoc,
    paintFrom_append, paintFrom_append]
  rw [paintFrom_flatMap (g.pitchRungs centerX centerY 20)
    (fun d i => rungPrims d centerX (centerY - i * g.config.lineSpacing) i ++
      rungPrims d centerX (centerY + i * g.config.lineSpacing) i)
    (preserves_pitchRungs g centerX centerY)
    (fun s i => paintFrom_pitchRungs g centerX centerY s i), paintFrom_restore]
  simp [paintFrom, run, step, CanvasState.initial, ladderState]

theorem rungPrims_even (d : DrawState) (centerX y : ℚ) (k : ℕ) :
    rungPrims d centerX y (2 * k) =
      [ Prim.text (toString (2 * k * 10)) (centerX + 35) (y + 4) d.frame d.fillStyle d.font
          d.textAlign,
        Prim.text (toString (2 * k * 10)) (centerX - 35) (y + 4) d.frame d.fillStyle d.font
          d.textAlign,
        Prim.stroked (PathItem.segment (centerX - 20) y (centerX + 20) y) d.frame
          d.strokeStyle d.lineWidth ] := by
  simp [rungPrims]

theorem rungPrims_odd (d : DrawState) (centerX y : ℚ) (k : ℕ) :
    rungPrims d centerX y (2 * k + 1) =
      [ Prim.stroked (PathItem.segment (centerX - 5) y (centerX + 5) y) d.frame
          d.strokeStyle d.lineWidth ] := by
  have h : (2 * k + 1) % 2 ≠ 0 := by omega
  simp [rungPrims, h]

theorem rungPrims_stroke_count (d : DrawState) (centerX y : ℚ) (i : ℕ) :
    ((rungPrims d centerX y i).filter Prim.isStroke).length = 1 := by
  unfold rungPrims
  split_ifs <;> simp [Prim.isStroke]

theorem ladder_stroke_count (d : DrawState) (centerX centerY spacing : ℚ) (l : List ℕ) :
    ((l.flatMap fun i =>
        rungPrims d centerX (centerY - i * spacing) i ++
        rungPrims d centerX (centerY + i * spacing) i).filter Prim.isStroke).length =
      2 * l.length := by
  induction l with
  | nil => simp
  | cons x xs ih =>
    rw [List.flatMap_cons, List.filter_append, List.length_append, ih, List.filter_append,
      List.length_append, rungPrims_stroke_count, rungPrims_stroke_count, List.length_cons]
    ring

/-- C4: with `pitchLines = n` the ladder paints, for `i = 1, ..., n` in turn and
nothing else, the rung `i` at `y = centerY - i * lineSpacing` and the rung `i` at
`y = centerY + i * lineSpacing`: `2 * n` strokes in all.  An even rung carries
the text of `i * 10` at `x = centerX + 35` and `x = centerX - 35`, `y + 4`; an
odd rung carries no text.  With `pitchLines = 3` these are three rungs above
and three below, rung 2 labelled "20" and rungs 1 and 3 unlabelled. -/
theorem drawPitchIndicators_rungs (g : Gauge) (centerX centerY radius : ℚ) (n : ℕ)
    (hn : g.config.pitchLines = n) :
    paint (g.drawPitchIndicators centerX centerY radius) =
      ((List.range' 1 n).flatMap fun i =>
        rungPrims (ladderState g.config.scaleColor) centerX
          (centerY - i * g.config.lineSpacing) i ++
        rungPrims (ladderState g.config.scaleColor) centerX
          (centerY + i * g.config.lineSpacing) i) ∧
    ((paint (g.drawPitchIndicators centerX centerY radius)).filter Prim.isStroke).length =
      2 * n ∧
    (∀ (d : DrawState) (y : ℚ) (k : ℕ), rungPrims d centerX y (2 * k) =
      [ Prim.text (toString (2 * k * 10)) (centerX + 35) (y + 4) d.frame d.fillStyle d.font
          d.textAlign,
        Prim.text (toString (2 * k * 10)) (centerX - 35) (y + 4) d.frame d.fillStyle d.font
          d.textAlign,
        Prim.stroked (PathItem.segment (centerX - 20) y (centerX + 20) y) d.frame
          d.strokeStyle d.lineWidth ]) ∧
    (∀ (d : DrawState) (y : ℚ) (k : ℕ), rungPrims d centerX y (2 * k + 1) =
      [ Prim.stroked (PathItem.segment (centerX - 5) y (centerX + 5) y) d.frame
          d.strokeStyle d.lineWidth ]) ∧
    paint (({ g with config := { g.config with pitchLines := 3 } } : Gauge).drawPitchIndicators
        centerX centerY radius) =
        [ Prim.stroked (PathItem.segment (centerX - 5) (centerY - 1 * g.config.lineSpacing)
            (centerX + 5) (centerY - 1 * g.config.lineSpacing)) []
            (Style.color g.config.scaleColor) 1,
          Prim.stroked (PathItem.segment (centerX - 5) (centerY + 1 * g.config.lineSpacing)
            (centerX + 5) (centerY + 1 * g.config.lineSpacing)) []
            (Style.color g.config.scaleColor) 1,
          Prim.text "20" (centerX + 35) (centerY - 2 * g.config.lineSpacing + 4) []
            (Style.color g.config.scaleColor) "12px Arial" "center",
          Prim.text "20" (centerX - 35) (centerY - 2 * g.config.lineSpacing + 4) []
            (Style.color g.config.scaleColor) "12px Arial" "center",
          Prim.stroked (PathItem.segment (centerX - 20) (centerY - 2 * g.config.lineSpacing)
            (centerX + 20) (centerY - 2 * g.config.lineSpacing)) []
            (Style.color g.config.scaleColor) 1,
          Prim.text "20" (centerX + 35) (centerY + 2 * g.config.lineSpacing + 4) []
            (Style.color g.config.scaleColor) "12px Arial" "center",
          Prim.text "20" (centerX - 35) (centerY + 2 * g.config.lineSpacing + 4) []
            (Style.color g.config.scaleColor) "12px Arial" "center",
          Prim.stroked (PathItem.segment (centerX - 20) (centerY + 2 * g.config.lineSpacing)
            (centerX + 20) (centerY + 2 * g.config.lineSpacing)) []
            (Style.color g.config.scaleColor) 1,
          Prim.stroked (PathItem.segment (centerX - 5) (centerY - 3 * g.config.lineSpacing)
            (centerX + 5) (centerY - 3 * g.config.lineSpacing)) []
            (Style.color g.config.scaleColor) 1,
          Prim.stroked (PathItem.segment (centerX - 5) (centerY + 3 * g.config.lineSpacing)
            (centerX + 5) (centerY + 3 * g.config.lineSpacing)) []
            (Style.color g.config.scaleColor) 1 ] := by
  have hp := paint_drawPitchIndicators g centerX centerY radius n hn
  refine ⟨hp, ?_, fun d y k => rungPrims_even d centerX y k,
    fun d y k => rungPrims_odd d centerX y k, ?_⟩
  · rw [hp, ladder_stroke_count, List.length_range']
  · rw [paint_drawPitchIndicators _ centerX centerY radius 3 (by norm_num)]
    have h20 : toString 20 = "20" := by decide
    simp [List.range', rungPrims, ladderState, h20]

theorem drawPitchIndicators_rungs_witness :
    gaugeThreeLines.config.pitchLines = ((3 : ℕ) : ℚ) ∧
    ((paint (gaugeThreeLines.drawPitchIndicators 100 100 80)).filter Prim.isStroke).length =
      2 * 3 :=
  ⟨by norm_num [gaugeThreeLines, Gauge.withState],
   (drawPitchIndicators_rungs gaugeThreeLines 100 100 80 3
      (by norm_num [gaugeThreeLines, Gauge.withState])).2.1⟩

/-- C9, as the code draws it: the tick of an even rung runs from
`centerX - 20` to `centerX + 20`, the full `lineLength = 20` either side, and the
tick of an odd rung runs from `centerX - 5` to `centerX + 5`, that is
`lineLength / 2 - 5` either side, so that its length is a quarter of the even
rung's. -/
theorem drawPitchLine_tick_extents (s : CanvasState) (centerX yPos : ℚ) (k : ℕ) :
    paintFrom s (drawPitchLine centerX yPos 20 (2 * k)) =
      [ Prim.text (toString (2 * k * 10)) (centerX + 35) (yPos + 4) s.cur.frame
          s.cur.fillStyle s.cur.font s.cur.textAlign,
        Prim.text (toString (2 * k * 10)) (centerX - 35) (yPos + 4) s.cur.frame
          s.cur.fillStyle s.cur.font s.cur.textAlign,
        Prim.stroked (PathItem.segment (centerX - 20) yPos (centerX + 20) yPos) s.cur.frame
          s.cur.strokeStyle s.cur.lineWidth ] ∧
    paintFrom s (drawPitchLine centerX yPos 20 (2 * k + 1)) =
      [ Prim.stroked (PathItem.segment (centerX - 5) yPos (centerX + 5) yPos) s.cur.frame
          s.cur.strokeStyle s.cur.lineWidth ] ∧
    (centerX + 5) - (centerX - 5) = ((centerX + 20) - (centerX - 20)) / 4 := by
  refine ⟨?_, ?_, by ring⟩
  · rw [paintFrom, (run_drawPitchLine s centerX yPos (2 * k)).2.2, rungPrims_even]
  · rw [paintFrom, (run_drawPitchLine s centerX yPos (2 * k + 1)).2.2, rungPrims_odd]

/-- C9 fails as stated: at `centerX = 100` the odd rung 1 is stroked from 95
to 105, not from 90 to 110, and its length 10 is not half of the length 40 of
the even rung 2, which is stroked from 80 to 120. -/
theorem odd_rung_is_not_half_length :
    paint (drawPitchLine 100 90 20 1) =
      [ Prim.stroked (PathItem.segment 95 90 105 90) [] (Style.color "#000000") 1 ] ∧
    (paint (drawPitchLine 100 80 20 2)).filter Prim.isStroke =
      [ Prim.stroked (PathItem.segment 80 80 120 80) [] (Style.color "#000000") 1 ] ∧
    PathItem.segment 95 90 105 90 ≠ PathItem.segment (100 - 10) 90 (100 + 10) 90 ∧
    (105 - 95 : ℚ) ≠ (120 - 80) / 2 := by
  refine ⟨?_, ?_, ?_, by norm_num⟩
  · rw [paint, paintFrom, (run_drawPitchLine _ 100 90 1).2.2]
    simp [rungPrims, CanvasState.initial]
    norm_num
  · rw [paint, paintFrom, (run_drawPitchLine _ 100 80 2).2.2]
    simp [rungPrims, CanvasState.initial, Prim.isStroke]
    norm_num
  · intro h
    injection h with h1
    norm_num at h1

/-! ## The dynamic horizon -/

theorem paintFrom_drawDynamicHorizon (g : Gauge) (s : CanvasState) (centerX centerY radius : ℚ) :
    paintFrom s (g.drawDynamicHorizon centerX centerY radius) =
      [ Prim.filled
          [(PathItem.arc 0 0 radius ⟨0⟩ ⟨360⟩,
            s.cur.frame ++ [Xform.translate centerX centerY,
              Xform.rotate ⟨-normalizedYaw g.yaw⟩])]
          (Style.gradient (g.horizonGradient radius)),
        Prim.stroked
          (PathItem.segment (-radius) (pitchOffset g.pitch radius) radius
            (pitchOffset g.pitch radius))
          (s.cur.frame ++ [Xform.translate centerX centerY,
            Xform.rotate ⟨-normalizedYaw g.yaw⟩])
          (Style.color g.config.scaleColor) 2 ] := by
  simp [paintFrom, run, step, Gauge.drawDynamicHorizon]

theorem preserves_drawDynamicHorizon (g : Gauge) (centerX centerY radius : ℚ) :
    Preserves (g.drawDynamicHorizon centerX centerY radius) := by
  intro s
  simp [run, step, Gauge.drawDynamicHorizon]

theorem sq_add_sq_le_iff (r p : ℚ) : r ^ 2 + p ^ 2 ≤ r ^ 2 ↔ p = 0 := by
  constructor
  · intro h
    have h1 : p ^ 2 ≤ 0 := by linarith
    have h2 : 0 ≤ p ^ 2 := sq_nonneg p
    exact pow_eq_zero_iff (by norm_num) |>.mp (le_antisymm h1 h2)
  · intro h
    rw [h]
    norm_num

/-- C8, as the code draws it: `drawDynamicHorizon` fills the full disc of the
given radius about the translated origin and strokes the horizon line from
`(-radius, pitchOffset)` to `(radius, pitchOffset)` in the frame translated to
the centre and rotated by the yaw; an endpoint of that line satisfies
`x^2 + y^2 ≤ radius^2` exactly when `pitchOffset = 0`, that is when the pitch or
the radius is 0. -/
theorem horizon_line_endpoints (g : Gauge) (s : CanvasState) (centerX centerY radius : ℚ) :
    paintFrom s (g.drawDynamicHorizon centerX centerY radius) =
      [ Prim.filled
          [(PathItem.arc 0 0 radius ⟨0⟩ ⟨360⟩,
            s.cur.frame ++ [Xform.translate centerX centerY,
              Xform.rotate ⟨-normalizedYaw g.yaw⟩])]
          (Style.gradient (g.horizonGradient radius)),
        Prim.stroked
          (PathItem.segment (-radius) (pitchOffset g.pitch radius) radius
            (pitchOffset g.pitch radius))
          (s.cur.frame ++ [Xform.translate centerX centerY,
            Xform.rotate ⟨-normalizedYaw g.yaw⟩])
          (Style.color g.config.scaleColor) 2 ] ∧
    ((-radius) ^ 2 + (pitchOffset g.pitch radius) ^ 2 ≤ radius ^ 2 ↔
      pitchOffset g.pitch radius = 0) ∧
    (radius ^ 2 + (pitchOffset g.pitch radius) ^ 2 ≤ radius ^ 2 ↔
      pitchOffset g.pitch radius = 0) ∧
    (pitchOffset g.pitch radius = 0 ↔ g.pitch = 0 ∨ radius = 0) := by
  refine ⟨paintFrom_drawDynamicHorizon g s centerX centerY radius, ?_,
    sq_add_sq_le_iff _ _, ?_⟩
  · rw [neg_sq]
    exact sq_add_sq_le_iff _ _
  · simp [pitchOffset]

/-- C8 fails as stated: with the default bounds, radius 80 and the stored
pitch 30, the stroked horizon line runs from `(-80, 80/3)` to `(80, 80/3)`, and
neither endpoint satisfies `x^2 + y^2 ≤ 80^2`. -/
theorem horizon_line_leaves_circle :
    (gauge200.setPitch 30).pitch = 30 ∧
    gauge200.config.minPitch ≤ 30 ∧ 30 ≤ gauge200.config.maxPitch ∧
    Prim.stroked (PathItem.segment (-80) (80 / 3) 80 (80 / 3))
        [Xform.translate 100 100, Xform.rotate ⟨0⟩] (Style.color "#fff") 2 ∈
      paint ((gauge200.setPitch 30).drawDynamicHorizon 100 100 80) ∧
    ¬ ((-80 : ℚ) ^ 2 + (80 / 3) ^ 2 ≤ 80 ^ 2) ∧
    ¬ ((80 : ℚ) ^ 2 + (80 / 3) ^ 2 ≤ 80 ^ 2) := by
  have hp : (gauge200.setPitch 30).pitch = 30 := by
    norm_num [Gauge.setPitch, gauge200, Gauge.withState, defaultConfig]
  refine ⟨hp, by norm_num [gauge200, Gauge.withState, defaultConfig],
    by norm_num [gauge200, Gauge.withState, defaultConfig], ?_, by norm_num, by norm_num⟩
  rw [paint, paintFrom_drawDynamicHorizon, hp]
  have hy : (gauge200.setPitch 30).yaw = 0 := rfl
  have hc : (gauge200.setPitch 30).config.scaleColor = "#fff" := rfl
  have ho : pitchOffset 30 80 = 80 / 3 := by norm_num [pitchOffset]
  rw [hy, hc, ho, normalizedYaw_0]
  simp [CanvasState.initial]

/-! ## The fixed markers -/

theorem preserves_bracket (a : Style) (b : ℚ) (c : String) (d : Style) (e : String)
    {body : List Cmd} (hb : Preserves body) :
    Preserves
      ([ Cmd.save, Cmd.setStrokeStyle a, Cmd.setLineWidth b, Cmd.setFont c,
         Cmd.setFillStyle d, Cmd.setTextAlign e ] ++ body ++ [Cmd.restore]) := by
  intro s
  rw [run_append, run_append]
  have h := hb (run s [ Cmd.save, Cmd.setStrokeStyle a, Cmd.setLineWidth b, Cmd.setFont c,
    Cmd.setFillStyle d, Cmd.setTextAlign e ]).1
  generalize (run (run s [ Cmd.save, Cmd.setStrokeStyle a, Cmd.setLineWidth b, Cmd.setFont c,
    Cmd.setFillStyle d, Cmd.setTextAlign e ]).1 body).1 = s1 at h ⊢
  have hsv : s1.saved = s.cur :: s.saved := by
    rw [h.2]
    simp [run, step]
  simp [run, step, hsv]

theorem preserves_headingTick (m : Trig) (centerX centerY radius : ℚ) (heading : ℚ × String) :
    Preserves (headingTick m centerX centerY radius heading) := by
  intro s
  simp [run, step, headingTick]

theorem preserves_minorTickLoop (m : Trig) (centerX centerY radius : ℚ) (fuel i : ℕ) :
    Preserves (minorTickLoop m centerX centerY radius fuel i) := by
  induction fuel generalizing i with
  | zero => exact preserves_nil
  | succ k ih =>
    unfold minorTickLoop
    by_cases h : i < 360
    · rw [if_pos h]
      refine preserves_append ?_ (ih (i + 30))
      by_cases h90 : i % 90 = 0
      · rw [if_pos h90]
        exact preserves_nil
      · rw [if_neg h90]
        intro s
        simp [run, step]
    · rw [if_neg h]
      exact preserves_nil

theorem preserves_pitchLoop (g : Gauge) (centerX centerY : ℚ) (fuel i : ℕ) :
    Preserves (g.pitchLoop centerX centerY 20 fuel i) := by
  induction fuel generalizing i with
  | zero => exact preserves_nil
  | succ k ih =>
    unfold Gauge.pitchLoop
    by_cases h : (i : ℚ) ≤ g.config.pitchLines
    · rw [if_pos h]
      exact preserves_append (preserves_pitchRungs g centerX centerY i) (ih (i + 1))
    · rw [if_neg h]
      exact preserves_nil

theorem drawHeadingIndicators_eq (g : Gauge) (m : Trig) (centerX centerY radius : ℚ) :
    g.drawHeadingIndicators m centerX centerY radius =
      [ Cmd.save, Cmd.setStrokeStyle (Style.color g.config.scaleColor), Cmd.setLineWidth 1,
        Cmd.setFont "14px Arial", Cmd.setFillStyle (Style.color g.config.scaleColor),
        Cmd.setTextAlign "center" ] ++
      (List.flatMap [((0 : ℚ), "N"), (90, "E"), (180, "S"), (270, "W")]
          (headingTick m centerX centerY radius) ++
        minorTickLoop m centerX centerY radius 12 0) ++
      [Cmd.restore] := by
  unfold Gauge.drawHeadingIndicators
  simp only [List.append_assoc]

theorem preserves_drawHeadingIndicators (g : Gauge) (m : Trig) (centerX centerY radius : ℚ) :
    Preserves (g.drawHeadingIndicators m centerX centerY radius) := by
  rw [drawHeadingIndicators_eq]
  have h1 : Preserves (List.flatMap [((0 : ℚ), "N"), (90, "E"), (180, "S"), (270, "W")]
      (headingTick m centerX centerY radius)) :=
    preserves_flatMap _ (preserves_headingTick m centerX centerY radius) _
  have h2 := preserves_minorTickLoop m centerX centerY radius 12 0
  have h3 := preserves_append h1 h2
  exact preserves_bracket _ _ _ _ _ h3

theorem preserves_drawPitchIndicators (g : Gauge) (centerX centerY radius : ℚ) :
    Preserves (g.drawPitchIndicators centerX centerY radius) := by
  unfold Gauge.drawPitchIndicators
  exact preserves_bracket _ _ _ _ _ (preserves_pitchLoop g centerX centerY _ 1)

theorem preserves_drawFixedIndicators (g : Gauge) (m : Trig) (centerX centerY radius : ℚ) :
    Preserves (g.drawFixedIndicators m centerX centerY radius) := by
  unfold Gauge.drawFixedIndicators
  exact preserves_append (preserves_drawHeadingIndicators g m centerX centerY radius)
    (preserves_drawPitchIndicators g centerX centerY radius)

theorem keepsFrame_drawCallsBeforeMarkers (g : Gauge) (m : Trig) :
    KeepsFrame (g.drawCallsBeforeMarkers m) := by
  unfold Gauge.drawCallsBeforeMarkers
  refine keepsFrame_append (keepsFrame_append (keepsFrame_append ?_ ?_)
    (preserves_keepsFrame (preserves_drawDynamicHorizon g _ _ _)))
    (preserves_keepsFrame (preserves_drawFixedIndicators g m _ _ _))
  · intro s
    simp [run, step]
  · intro s
    simp [run, step, Gauge.drawOuterCircle]

theorem paintFrom_drawFixedMarkers (g : Gauge) (s : CanvasState) (centerX centerY : ℚ) :
    paintFrom s (g.drawFixedMarkers centerX centerY) =
      markerPrims s.cur.frame centerX (centerY + (min centerX centerY - 20) / 90) := by
  simp only [paintFrom, run, step, Gauge.drawFixedMarkers, markerPrims, one_mul,
    List.nil_append, List.append_nil, List.map_cons, List.map_nil, List.cons_append]
  ring_nf

theorem paint_drawCalls (g : Gauge) (m : Trig) :
    paint (g.drawCalls m) =
      paint (g.drawCallsBeforeMarkers m) ++
      markerPrims [] (g.canvas.width / 2)
        (g.canvas.height / 2 + (min (g.canvas.width / 2) (g.canvas.height / 2) - 20) / 90) := by
  have h : g.drawCalls m =
      g.drawCallsBeforeMarkers m ++
        g.drawFixedMarkers (g.canvas.width / 2) (g.canvas.height / 2) := rfl
  rw [h, paint, paintFrom_append, paintFrom_drawFixedMarkers,
    (keepsFrame_drawCallsBeforeMarkers g m CanvasState.initial).1]
  rfl

/-- C5: on a surface of any size, for any two states of a gauge with the same
configuration, `draw` issues the same fixed-marker calls after the calls that
depend on the state, and what they paint, last of all and in the untransformed
frame, is: a red segment from `centerX - 50` to `centerX - 10` and a red segment
from `centerX + 10` to `centerX + 50`, both at `y = centerY + radius / 90` with
`radius = min centerX centerY - 20`, then a yellow vertical segment at
`x = centerX` from `y + 2` to `y - 2`. -/
theorem fixed_markers_independent_of_state (width height : ℚ) (config : Config) (m : Trig)
    (yaw1 pitch1 yaw2 pitch2 : ℚ) :
    (Gauge.withState width height config yaw1 pitch1).drawFixedMarkers
        (width / 2) (height / 2) =
      (Gauge.withState width height config yaw2 pitch2).drawFixedMarkers
        (width / 2) (height / 2) ∧
    (Gauge.withState width height config yaw1 pitch1).draw m =
      Except.ok ((Gauge.withState width height config yaw1 pitch1).drawCallsBeforeMarkers m ++
        (Gauge.withState width height config yaw1 pitch1).drawFixedMarkers
          (width / 2) (height / 2)) ∧
    (Gauge.withState width height config yaw2 pitch2).draw m =
      Except.ok ((Gauge.withState width height config yaw2 pitch2).drawCallsBeforeMarkers m ++
        (Gauge.withState width height config yaw2 pitch2).drawFixedMarkers
          (width / 2) (height / 2)) ∧
    paint ((Gauge.withState width height config yaw1 pitch1).drawCalls m) =
      paint ((Gauge.withState width height config yaw1 pitch1).drawCallsBeforeMarkers m) ++
        markerPrims [] (width / 2)
          (height / 2 + (min (width / 2) (height / 2) - 20) / 90) ∧
    paint ((Gauge.withState width height config yaw2 pitch2).drawCalls m) =
      paint ((Gauge.withState width height config yaw2 pitch2).drawCallsBeforeMarkers m) ++
        markerPrims [] (width / 2)
          (height / 2 + (min (width / 2) (height / 2) - 20) / 90) ∧
    (∀ (frame : List Xform) (centerX y : ℚ), markerPrims frame centerX y =
      [ Prim.stroked (PathItem.segment (centerX - 50) y (centerX - 10) y) frame
          (Style.color "#f00") 2,
        Prim.stroked (PathItem.segment (centerX + 10) y (centerX + 50) y) frame
          (Style.color "#f00") 2,
        Prim.stroked (PathItem.segment centerX (y + 2) centerX (y - 2)) frame
          (Style.color "#ff0") 5 ]) :=
  ⟨rfl, rfl, rfl, paint_drawCalls _ m, paint_drawCalls _ m, fun _ _ _ => rfl⟩

/-! ## Clamping before wrapping -/

theorem pitchLoop_yaw (g : Gauge) (y : ℚ) (centerX centerY lineLength : ℚ) (fuel i : ℕ) :
    ({ g with yaw := y } : Gauge).pitchLoop centerX centerY lineLength fuel i =
      g.pitchLoop centerX centerY lineLength fuel i := by
  induction fuel generalizing i with
  | zero => rfl
  | succ k ih =>
    simp only [Gauge.pitchLoop, ih]
    rfl

theorem drawCalls_yaw (g : Gauge) (m : Trig) (y1 y2 : ℚ)
    (h : normalizedYaw y1 = normalizedYaw y2) :
    ({ g with yaw := y1 } : Gauge).drawCalls m = ({ g with yaw := y2 } : Gauge).drawCalls m := by
  simp only [Gauge.drawCalls, Gauge.drawOuterCircle, Gauge.drawDynamicHorizon,
    Gauge.horizonGradient, Gauge.drawFixedIndicators, Gauge.drawHeadingIndicators,
    Gauge.drawPitchIndicators, Gauge.drawFixedMarkers, pitchLoop_yaw, h]

theorem drawCalls_rotate (g : Gauge) (m : Trig) :
    (g.drawCalls m)[8]? = some (Cmd.rotate ⟨-normalizedYaw g.yaw⟩) := rfl

theorem stored_yaw_default (g : Gauge) (a : ℚ) (hcfg : g.config = defaultConfig)
    (ha : 360 ≤ a ∨ a ≤ -360) :
    g.setYaw a = { g with yaw := 360 } ∨ g.setYaw a = { g with yaw := -360 } := by
  rcases ha with h | h
  · left
    simp only [Gauge.setYaw, hcfg, defaultConfig]
    rw [min_eq_left h, max_eq_right (by norm_num)]
  · right
    simp only [Gauge.setYaw, hcfg, defaultConfig]
    rw [min_eq_right (by linarith), max_eq_left h]

theorem normalizedYaw_eq_zero_iff (a : ℚ) :
    normalizedYaw a = 0 ↔ ∃ k : ℤ, a = 360 * (k : ℚ) := by
  constructor
  · intro h
    unfold normalizedYaw jsRem at h
    refine ⟨jsTrunc (a / 360) + jsTrunc ((a - 360 * (jsTrunc (a / 360) : ℚ) + 360) / 360) - 1, ?_⟩
    push_cast
    linarith
  · rintro ⟨k, rfl⟩
    have h : (360 : ℚ) * (k : ℚ) = ((360 * k : ℤ) : ℚ) := by
      push_cast
      rfl
    rw [h, normalizedYaw_intCast_emod, Int.mul_emod_right]
    rfl

theorem normalizedYaw_720 : normalizedYaw 720 = 0 := by
  have h := normalizedYaw_intCast_emod 720
  norm_num at h
  exact h

theorem normalizedYaw_half : normalizedYaw (741 / 2) = 21 / 2 := by
  have h1 : jsTrunc ((741 / 2 : ℚ) / 360) = 1 := by
    unfold jsTrunc
    rw [if_pos (by norm_num)]
    rw [Int.floor_eq_iff]
    norm_num
  have h2 : jsRem (741 / 2) 360 = 21 / 2 := by
    unfold jsRem
    rw [h1]
    norm_num
  have h3 : (21 / 2 : ℚ) + 360 = 741 / 2 := by norm_num
  unfold normalizedYaw
  rw [h2, h3, h2]

/-- C10, as the code behaves: under the default bounds, for every `a` with
`a ≥ 360` or `a ≤ -360`, the yaw stored by `setYaw a` normalises to 0, and `draw`
after `setYaw a` issues exactly the calls it issues for a stored yaw of 0, the
rotation included; `setYaw 370` is drawn like 0 although 370 itself normalises to
10.  Such an input is drawn as its own value modulo 360 exactly when it is an
integer multiple of 360: 720 is, 370 and 370.5 are not. -/
theorem setYaw_clamps_before_wrapping (g : Gauge) (m : Trig) (a : ℚ)
    (hcfg : g.config = defaultConfig) (ha : 360 ≤ a ∨ a ≤ -360) :
    normalizedYaw (g.setYaw a).yaw = 0 ∧
    normalizedYaw 0 = 0 ∧
    (g.setYaw a).draw m = ({ g with yaw := 0 } : Gauge).draw m ∧
    (∀ centerX centerY radius : ℚ,
      (g.setYaw a).drawDynamicHorizon centerX centerY radius =
        ({ g with yaw := 0 } : Gauge).drawDynamicHorizon centerX centerY radius) ∧
    (∀ centerX centerY radius : ℚ,
      ((g.setYaw a).drawDynamicHorizon centerX centerY radius)[2]? =
        some (Cmd.rotate ⟨0⟩)) ∧
    normalizedYaw (g.setYaw 370).yaw = 0 ∧
    normalizedYaw 370 = 10 ∧
    (normalizedYaw (g.setYaw a).yaw = normalizedYaw a ↔ ∃ k : ℤ, a = 360 * (k : ℚ)) ∧
    ((g.setYaw a).drawCalls m = ({ g with yaw := a } : Gauge).drawCalls m ↔
      ∃ k : ℤ, a = 360 * (k : ℚ)) ∧
    normalizedYaw (g.setYaw 720).yaw = normalizedYaw 720 ∧
    normalizedYaw (g.setYaw (741 / 2)).yaw = 0 ∧
    normalizedYaw (741 / 2) = 21 / 2 ∧
    (∀ z : ℤ, normalizedYaw (z : ℚ) = 0 ↔ (360 : ℤ) ∣ z) := by
  have key : ∀ b : ℚ, (360 ≤ b ∨ b ≤ -360) → normalizedYaw (g.setYaw b).yaw = 0 := by
    intro b hb
    rcases stored_yaw_default g b hcfg hb with h | h <;> rw [h]
    · exact normalizedYaw_360
    · exact normalizedYaw_neg_360
  have hn := key a ha
  have hs : g.setYaw a = { g with yaw := (g.setYaw a).yaw } := rfl
  have hd0 : (g.setYaw a).draw m = ({ g with yaw := 0 } : Gauge).draw m := by
    rw [hs]
    simp only [Gauge.draw]
    rw [drawCalls_yaw g m (g.setYaw a).yaw 0 (by rw [hn, normalizedYaw_0])]
  refine ⟨hn, normalizedYaw_0, hd0, ?_, ?_, key 370 (Or.inl (by norm_num)),
    normalizedYaw_370, ?_, ?_, ?_, key (741 / 2) (Or.inl (by norm_num)),
    normalizedYaw_half, ?_⟩
  · intro centerX centerY radius
    rw [hs]
    simp only [Gauge.drawDynamicHorizon, Gauge.horizonGradient, hn, normalizedYaw_0]
  · intro centerX centerY radius
    simp only [Gauge.drawDynamicHorizon, hn, neg_zero]
    rfl
  · rw [hn, eq_comm]
    exact normalizedYaw_eq_zero_iff a
  · constructor
    · intro h
      apply (normalizedYaw_eq_zero_iff a).mp
      have h2 := congrArg (fun l : List Cmd => l[8]?) h
      simp only [drawCalls_rotate, hn, Option.some.injEq, Cmd.rotate.injEq, Angle.mk.injEq,
        neg_zero] at h2
      have h3 : normalizedYaw (({ g with yaw := a } : Gauge).yaw) = 0 := by linarith
      exact h3
    · intro h
      rw [hs]
      exact drawCalls_yaw g m (g.setYaw a).yaw a
        (by rw [hn, (normalizedYaw_eq_zero_iff a).mpr h])
  · rw [key 720 (Or.inl (by norm_num)), normalizedYaw_720]
  · intro z
    rw [normalizedYaw_intCast_emod]
    constructor
    · intro h
      have h1 : z % 360 = 0 := by exact_mod_cast h
      exact Int.dvd_of_emod_eq_zero h1
    · intro h
      have h1 : z % 360 = 0 := Int.emod_eq_zero_of_dvd h
      rw [h1]
      norm_num

theorem setYaw_clamps_before_wrapping_witness :
    normalizedYaw (gauge200.setYaw 370).yaw = 0 ∧
    (gauge200.setYaw 370).draw sampleTrig =
      ({ gauge200 with yaw := 0 } : Gauge).draw sampleTrig :=
  ⟨(setYaw_clamps_before_wrapping gauge200 sampleTrig 370 rfl (Or.inl (by norm_num))).1,
   (setYaw_clamps_before_wrapping gauge200 sampleTrig 370 rfl (Or.inl (by norm_num))).2.2.1⟩

/-- C10 fails as stated: 720 is larger than 360 in magnitude, and under the
default bounds `setYaw 720` stores 360 and `draw` then issues exactly the calls
it issues for a stored yaw of 720, so this input is rendered modulo 360. -/
theorem setYaw_720_is_rendered_modulo_360 :
    gauge200.config = defaultConfig ∧
    (360 : ℚ) < 720 ∧
    (gauge200.setYaw 720).yaw = 360 ∧
    normalizedYaw (gauge200.setYaw 720).yaw = normalizedYaw 720 ∧
    (gauge200.setYaw 720).draw sampleTrig =
      ({ gauge200 with yaw := 720 } : Gauge).draw sampleTrig := by
  have hy : (gauge200.setYaw 720).yaw = 360 := by
    norm_num [Gauge.setYaw, gauge200, Gauge.withState, defaultConfig]
  have hs : gauge200.setYaw 720 = { gauge200 with yaw := (gauge200.setYaw 720).yaw } := rfl
  refine ⟨rfl, by norm_num, hy, ?_, ?_⟩
  · rw [hy, normalizedYaw_360, normalizedYaw_720]
  · rw [hs, hy]
    simp only [Gauge.draw]
    rw [drawCalls_yaw gauge200 sampleTrig 360 720 (by rw [normalizedYaw_360, normalizedYaw_720])]

/-! ## The loops run to their exit condition -/

theorem pitchLoop_fuel_add (g : Gauge) (centerX centerY lineLength : ℚ) (k : ℕ) :
    ∀ fuel i : ℕ, g.config.pitchLines < ((i + fuel : ℕ) : ℚ) →
      g.pitchLoop centerX centerY lineLength (fuel + k) i =
        g.pitchLoop centerX centerY lineLength fuel i := by
  intro fuel
  induction fuel with
  | zero =>
    intro i hi
    have hlt : ¬ ((i : ℚ) ≤ g.config.pitchLines) := by
      rw [Nat.add_zero] at hi
      exact not_le.mpr hi
    cases k with
    | zero => rfl
    | succ j => simp [Gauge.pitchLoop, hlt]
  | succ f ih =>
    intro i hi
    have h1 : f + 1 + k = (f + k) + 1 := by omega
    rw [h1]
    simp only [Gauge.pitchLoop]
    rw [ih (i + 1) (by rw [show i + 1 + f = i + (f + 1) by omega]; exact hi)]

/-- The loop of `drawPitchIndicators` stops because its condition fails, not
because the iterations run out: more iterations issue the same calls. -/
theorem pitchLoop_fuel_enough (g : Gauge) (centerX centerY lineLength : ℚ) (k : ℕ) :
    g.pitchLoop centerX centerY lineLength ((⌊g.config.pitchLines⌋).toNat + k) 1 =
      g.pitchLoop centerX centerY lineLength (⌊g.config.pitchLines⌋).toNat 1 := by
  apply pitchLoop_fuel_add
  have h1 : g.config.pitchLines < (⌊g.config.pitchLines⌋ : ℚ) + 1 :=
    Int.lt_floor_add_one _
  have h2 : (⌊g.config.pitchLines⌋ : ℤ) ≤ ((⌊g.config.pitchLines⌋).toNat : ℤ) :=
    Int.self_le_toNat _
  have h3 : ((⌊g.config.pitchLines⌋ : ℤ) : ℚ) ≤ (((⌊g.config.pitchLines⌋).toNat : ℤ) : ℚ) := by
    exact_mod_cast h2
  push_cast at h3 ⊢
  linarith

theorem minorTickLoop_done (m : Trig) (centerX centerY radius : ℚ) (k : ℕ) :
    minorTickLoop m centerX centerY radius k 360 = [] := by
  cases k <;> simp [minorTickLoop]

/-- The loop of `drawHeadingIndicators` stops because its condition fails after
twelve iterations: more iterations issue the same calls. -/
theorem minorTickLoop_fuel_enough (m : Trig) (centerX centerY radius : ℚ) (k : ℕ) :
    minorTickLoop m centerX centerY radius (12 + k) 0 =
      minorTickLoop m centerX centerY radius 12 0 := by
  have h : 12 + k = k + 1 + 1 + 1 + 1 + 1 + 1 + 1 + 1 + 1 + 1 + 1 + 1 := by omega
  rw [h]
  simp only [minorTickLoop, minorTickLoop_done]
  simp
  exact minorTickLoop_done m centerX centerY radius k

end CanvasGauge
